import Mathlib

/-!
Shallow embedding of gcplistforeach (src/main.go, the second variant of
_main; the first variant differs only in the drop flag, FilterError with
inverted polarity instead of IncludeError).  The embedded part is the
per-seed pagination worker closure passed to eg.Go: the backoff retry
loop, response classification, collection merging across pages, and the
final Result construction.  The endpoint is modelled as a script: for the
n-th page fetch, a list of per-attempt outcomes whose length also encodes
how many attempts backoff.Continue permits before signalling exhaustion
(the exponential policy has no attempt cap, so exhaustion corresponds to
cancellation of the shared context).
-/

/-- Decoded JSON values, as json.Unmarshal produces into interface values.
An object is a key/value list with unique keys; lookup is by key. -/
inductive JValue where
  | null
  | bool (b : Bool)
  | num (n : Int)
  | str (s : String)
  | arr (elems : List JValue)
  | obj (fields : List (String × JValue))

/-- A decoded response body: the Go map produced by json.Unmarshal. -/
abbrev JObj := List (String × JValue)

/-- Outcome of one physical HTTP attempt (rl.Take + client.Do).  For a
response, body is the JSON-decoded body; none models a body that
io.ReadAll or json.Unmarshal later fails on. -/
inductive Attempt where
  | transportFailure
  | response (status : Nat) (body : Option JObj)

/-- How the anonymous backoff closure (for backoff.Continue ... in
src/main.go lines 575-610) returns: a non-nil response with nil error
(only reachable for status 200 or a non-429 4xx), a nil response with the
transport error, or a nil response with the "backoff finally failed"
error once backoff.Continue signals exhaustion. -/
inductive RetryExit where
  | gotResp (status : Nat) (body : Option JObj)
  | transport
  | exhausted

/-- The retry loop of src/main.go lines 575-610, classifying each attempt:
transport error exits with the error; 200 exits with the response; 429
logs and retries; any other 4xx exits with the response; everything else
(5xx included) falls through and retries.  Running out of attempts models
backoff.Continue returning false.  The second component counts attempts
actually performed (physical network calls). -/
def retryLoop : List Attempt → RetryExit × Nat
  | [] => (RetryExit.exhausted, 0)
  | Attempt.transportFailure :: _ => (RetryExit.transport, 1)
  | Attempt.response s b :: rest =>
    if s = 200 then (RetryExit.gotResp s b, 1)
    else if s = 429 then
      let r := retryLoop rest
      (r.1, r.2 + 1)
    else if 400 ≤ s ∧ s < 500 then (RetryExit.gotResp s b, 1)
    else
      let r := retryLoop rest
      (r.1, r.2 + 1)

/-- The option fields of opts that the worker closure reads (the
collection name is computed by the dispatcher and captured separately). -/
structure Opts where
  execute : Bool
  verbose : Bool
  includeError : Bool
  billingProject : String
deriving DecidableEq, Repr

/-- One outbound GET request: the seed URL plus the pageToken query
parameter, attached only when the cursor is non-empty (src/main.go lines
556-560). -/
structure Request where
  url : String
  pageToken : Option String
deriving DecidableEq, Repr

/-- Request construction for the current cursor value. -/
def buildRequest (base : String) (cursor : String) : Request :=
  { url := base, pageToken := if cursor = "" then none else some cursor }

/-- The output struct of src/main.go: one emitted record. -/
structure output where
  input : JValue
  response : JValue

/-- How one worker invocation ends.  emitted: a Result reached
enc.Encode.  dryRun: the early return when Execute is false.  dropped:
the IncludeError filter returned nil without a Result.  decodeFatal:
io.ReadAll or json.Unmarshal failed and the worker returned the error to
the errgroup.  transportNilDeref / backoffNilDeref: the err of the retry
closure is never checked, so after a transport error or backoff
exhaustion resp is nil and io.ReadAll(resp.Body) dereferences a nil
pointer (a runtime panic, which this errgroup version does not recover).
outOfScript: the endpoint script supplied fewer pages than the worker
requested (a model artifact, not a code path). -/
inductive WorkerOutcome where
  | emitted (res : output)
  | dryRun
  | dropped
  | decodeFatal
  | transportNilDeref
  | backoffNilDeref
  | outOfScript

/-- Go map read on a decoded body (keys unique, as json.Unmarshal
produces): the value stored under the key, or none when absent. -/
def jlookup : String → JObj → Option JValue
  | _, [] => none
  | k, (k2, v) :: rest => if k = k2 then some v else jlookup k rest

/-- Go append(collection, c...) on the worker's collection slice, keeping
the nil/non-nil distinction: appending no items leaves a nil slice nil;
appending onto a non-nil slice concatenates. -/
def goAppend : Option (List JValue) → List JValue → Option (List JValue)
  | c, [] => c
  | none, x :: xs => some (x :: xs)
  | some ys, x :: xs => some (ys ++ x :: xs)

/-- Collection accumulation for one 200 page (src/main.go lines 636-638):
if the value under the collection key type-asserts to a slice, append its
items; otherwise leave the collection untouched. -/
def updateCollection (cn : String) (body : JObj)
    (coll : Option (List JValue)) : Option (List JValue) :=
  match jlookup cn body with
  | some (JValue.arr c) => goAppend coll c
  | _ => coll

/-- Final pagination response (src/main.go lines 643-647): an empty
object when the collection slice is still nil, otherwise a single-key
object carrying the merged collection. -/
def mergedResponse (cn : String) : Option (List JValue) → JValue
  | none => JValue.obj []
  | some xs => JValue.obj [(cn, JValue.arr xs)]

/-- The pagination worker closure (src/main.go lines 546-660).  Arguments
after the captured ones: the endpoint script (per page fetch, the attempt
outcomes backoff permits), the current cursor (nextPageToken variable),
the accumulated collection slice, and the requests issued so far.
Returns the outcome and the full list of physical requests issued. -/
def paginationWorker (o : Opts) (input : JValue) (baseUrl : String)
    (cn : String) :
    List (List Attempt) → String → Option (List JValue) → List Request →
    WorkerOutcome × List Request
  | script, cursor, coll, calls =>
    let req := buildRequest baseUrl cursor
    if o.execute = false then (WorkerOutcome.dryRun, calls)
    else
      match script with
      | [] => (WorkerOutcome.outOfScript, calls)
      | page :: rest =>
        let r := retryLoop page
        let calls2 := calls ++ List.replicate r.2 req
        match r.1 with
        | RetryExit.transport => (WorkerOutcome.transportNilDeref, calls2)
        | RetryExit.exhausted => (WorkerOutcome.backoffNilDeref, calls2)
        | RetryExit.gotResp status bodyOpt =>
          match bodyOpt with
          | none => (WorkerOutcome.decodeFatal, calls2)
          | some body =>
            if o.includeError = false ∧ status ≠ 200 then
              (WorkerOutcome.dropped, calls2)
            else if cn = "" ∨ status ≠ 200 then
              (WorkerOutcome.emitted ⟨input, JValue.obj body⟩, calls2)
            else
              let coll2 := updateCollection cn body coll
              match jlookup "nextPageToken" body with
              | some (JValue.str npt) =>
                paginationWorker o input baseUrl cn rest npt coll2 calls2
              | _ =>
                (WorkerOutcome.emitted ⟨input, mergedResponse cn coll2⟩,
                 calls2)

/-- A one-attempt 200 page body with the collection field first and an
optional nextPageToken field: the well-behaved endpoint shape the
happy-path claims quantify over. -/
def mkPageBody (cn : String) (items : List JValue) (tok : Option String) :
    JObj :=
  (cn, JValue.arr items) ::
    (match tok with
     | some t => [("nextPageToken", JValue.str t)]
     | none => [])

/-- Abstraction of a Go slice built purely by appends: nil when the item
list is empty, the non-nil slice otherwise. -/
def ofNonempty : List JValue → Option (List JValue)
  | [] => none
  | x :: xs => some (x :: xs)

/-- Go append on a slice represented through ofNonempty is list
concatenation. -/
theorem goAppend_ofNonempty (a b : List JValue) :
    goAppend (ofNonempty a) b = ofNonempty (a ++ b) := by
  cases a <;> cases b <;> simp [goAppend, ofNonempty]

/-- When Execute is false the worker returns at the dry-run early return:
no request is issued and no Result is built, whatever the endpoint. -/
theorem pw_dry_run (o : Opts) (input : JValue) (url cn : String)
    (script : List (List Attempt)) (cursor : String)
    (coll : Option (List JValue)) (calls : List Request)
    (h : o.execute = false) :
    paginationWorker o input url cn script cursor coll calls
      = (WorkerOutcome.dryRun, calls) := by
  rw [paginationWorker.eq_def]
  simp [h]

/-- One pagination step on a 200 page that decodes to body, with a
configured collection field: the collection is updated, then pagination
continues exactly when the nextPageToken field holds a string, and
otherwise terminates with the merged Result. -/
theorem pw_paginate_step (o : Opts) (input : JValue) (url cn : String)
    (body : JObj) (rest : List (List Attempt)) (cursor : String)
    (coll : Option (List JValue)) (calls : List Request)
    (hex : o.execute = true) (hcn : cn ≠ "") :
    paginationWorker o input url cn
        ([Attempt.response 200 (some body)] :: rest) cursor coll calls
      = match jlookup "nextPageToken" body with
        | some (JValue.str npt) =>
          paginationWorker o input url cn rest npt
            (updateCollection cn body coll)
            (calls ++ [buildRequest url cursor])
        | _ =>
          (WorkerOutcome.emitted
             ⟨input, mergedResponse cn (updateCollection cn body coll)⟩,
           calls ++ [buildRequest url cursor]) := by
  rw [paginationWorker.eq_def]
  simp only [hex, retryLoop]
  simp [hcn]

/-- A terminal non-429 4xx page: the worker stops requesting and either
emits the raw decoded body as the Result (IncludeError set) or returns
with no Result at all (IncludeError unset, the default). -/
theorem pw_4xx_step (o : Opts) (input : JValue) (url cn : String)
    (body : JObj) (rest : List (List Attempt)) (cursor : String)
    (coll : Option (List JValue)) (calls : List Request) (s : Nat)
    (hex : o.execute = true) (h4 : 400 ≤ s) (h5 : s < 500) (h9 : s ≠ 429) :
    paginationWorker o input url cn
        ([Attempt.response s (some body)] :: rest) cursor coll calls
      = ((if o.includeError then
            WorkerOutcome.emitted ⟨input, JValue.obj body⟩
          else WorkerOutcome.dropped),
         calls ++ [buildRequest url cursor]) := by
  have h200 : ¬ s = 200 := by omega
  rw [paginationWorker.eq_def]
  simp only [hex, retryLoop]
  simp only [h200, h9, if_false, h4, h5, and_self, if_true]
  cases hie : o.includeError <;> simp [h200]

/-- The retry loop performs at least one attempt when the backoff
schedule permits one. -/
theorem retryLoop_pos (l : List Attempt) (h : l ≠ []) :
    1 ≤ (retryLoop l).2 := by
  match l with
  | [] => exact absurd rfl h
  | Attempt.transportFailure :: rest => simp [retryLoop]
  | Attempt.response s b :: rest =>
    simp only [retryLoop]
    split
    · simp
    · split
      · simp
      · split
        · simp
        · simp

/-- The retry loop never hands a 429 response back to the worker: its
non-nil exits only carry a 200 or a non-429 4xx status. -/
theorem retryLoop_gotResp_ne429 :
    ∀ (l : List Attempt) (s : Nat) (b : Option JObj),
      (retryLoop l).1 = RetryExit.gotResp s b → s ≠ 429
  | [], s, b => by simp [retryLoop]
  | Attempt.transportFailure :: rest, s, b => by simp [retryLoop]
  | Attempt.response st bd :: rest, s, b => by
    simp only [retryLoop]
    split
    · rename_i h200
      intro he
      have hst : st = s ∧ bd = b := by simpa using he
      obtain ⟨h1, h2⟩ := hst
      omega
    · split
      · intro he
        exact retryLoop_gotResp_ne429 rest s b (by simpa using he)
      · split
        · rename_i hne200 hne429 h4xx
          intro he
          have hst : st = s ∧ bd = b := by simpa using he
          obtain ⟨h1, h2⟩ := hst
          omega
        · intro he
          exact retryLoop_gotResp_ne429 rest s b (by simpa using he)

/-- Worker applied to an empty endpoint script in execute mode: a model
artifact marking that the worker would issue a further request. -/
theorem pw_nil (o : Opts) (input : JValue) (url cn : String)
    (cursor : String) (coll : Option (List JValue)) (calls : List Request)
    (hex : o.execute = true) :
    paginationWorker o input url cn [] cursor coll calls
      = (WorkerOutcome.outOfScript, calls) := by
  rw [paginationWorker.eq_def]
  simp [hex]

/-- Claim C8 (confirmed): with execute false, for every seed the worker
returns at the dry-run early return on its first loop iteration: the
issued-request list stays empty (the rate limiter and HTTP call inside
the attempt closure are never reached) and the outcome is dryRun, never
an emitted Result, whatever the endpoint script holds. -/
theorem c8_dry_run_zero_calls_zero_results (o : Opts) (input : JValue)
    (url cn : String) (script : List (List Attempt)) (cursor : String)
    (coll : Option (List JValue))
    (h : o.execute = false) :
    paginationWorker o input url cn script cursor coll []
      = (WorkerOutcome.dryRun, []) :=
  pw_dry_run o input url cn script cursor coll [] h

/-- Witness for C8 at a concrete seed and endpoint script. -/
theorem c8_witness :
    paginationWorker ⟨false, false, false, ""⟩ JValue.null "http://h/a"
        "items" [[Attempt.response 200 (some [])]] "" none []
      = (WorkerOutcome.dryRun, []) :=
  c8_dry_run_zero_calls_zero_results ⟨false, false, false, ""⟩ JValue.null
    "http://h/a" "items" [[Attempt.response 200 (some [])]] "" none rfl

/-- Claim C3 (code bug): on a transport error the retry loop does stop at
once (only one attempt is issued although the schedule would have allowed
a second), but the worker does not propagate the error: the err returned
by the retry closure is never checked (src/main.go line 613 overwrites it
without a test), resp is nil, and io.ReadAll(resp.Body) dereferences a
nil pointer — the embedded worker ends in transportNilDeref, not in an
error Result handed to the errgroup. -/
theorem c3_transport_error_nil_dereference :
    paginationWorker ⟨true, false, true, ""⟩ JValue.null "http://h/a"
        "items" [[Attempt.transportFailure, Attempt.response 200 (some [])]]
        "" none []
      = (WorkerOutcome.transportNilDeref, [buildRequest "http://h/a" ""]) :=
  rfl

/-- Claim C4 (code bug): a 503 (or any unclassified status) is retried
under the backoff schedule — the first conjunct shows the retry loop
skipping a 503 and succeeding on the next attempt — but when the schedule
is exhausted the constructed "backoff finally failed" error is discarded
like every other err from the retry closure, resp is nil, and the worker
ends in the nil-dereference outcome instead of failing with the distinct
retry-budget error. -/
theorem c4_unclassified_retried_then_exhaustion_nil_dereference :
    retryLoop [Attempt.response 503 (some []), Attempt.response 200 (some [])]
        = (RetryExit.gotResp 200 (some []), 2)
      ∧ paginationWorker ⟨true, false, true, ""⟩ JValue.null "http://h/a"
          "items" [[Attempt.response 503 (some [])]] "" none []
          = (WorkerOutcome.backoffNilDeref, [buildRequest "http://h/a" ""]) :=
  ⟨rfl, rfl⟩

/-- Claim C7 (confirmed): a 429 makes the retry loop consult the backoff
schedule and, whenever the schedule permits a further attempt, at least
one more attempt is performed (first conjunct); the retry loop never
hands a 429 response back to the worker, so no emitted Result is ever
built from a 429 body (second conjunct); and all attempts of one page use
the identical request — same URL and same pageToken cursor (third
conjunct). -/
theorem c7_429_retry_never_result :
    (∀ (b : Option JObj) (rest : List Attempt), rest ≠ [] →
        2 ≤ (retryLoop (Attempt.response 429 b :: rest)).2)
      ∧ (∀ (l : List Attempt) (s : Nat) (b : Option JObj),
          (retryLoop l).1 = RetryExit.gotResp s b → s ≠ 429)
      ∧ (∀ (o : Opts) (input : JValue) (url cn : String)
          (page : List Attempt) (cursor : String)
          (coll : Option (List JValue)),
          o.execute = true →
          (paginationWorker o input url cn [page] cursor coll []).2
            = List.replicate (retryLoop page).2 (buildRequest url cursor)) := by
  refine ⟨?_, retryLoop_gotResp_ne429, ?_⟩
  · intro b rest h
    have h1 := retryLoop_pos rest h
    simp only [retryLoop]
    norm_num
    omega
  · intro o input url cn page cursor coll hex
    rw [paginationWorker.eq_def]
    simp only [hex]
    rcases hr : retryLoop page with ⟨e, n⟩
    cases e with
    | transport => simp [hr]
    | exhausted => simp [hr]
    | gotResp s bo =>
      cases bo with
      | none => simp [hr]
      | some body =>
        simp only [hr]
        by_cases h1 : o.includeError = false ∧ s ≠ 200
        · simp [h1]
        · simp only [h1, if_false]
          by_cases h2 : cn = "" ∨ s ≠ 200
          · simp [h1, h2]
          · simp only [h2, if_false]
            rcases hl : jlookup "nextPageToken" body with _ | v
            · simp [h1, h2, hl]
            · cases v <;>
                simp [h1, h2, hl, pw_nil o input url cn _ _ _ hex]

/-- Witness for C7: the theorem applied at a 429 followed by a 200. -/
theorem c7_witness :
    2 ≤ (retryLoop [Attempt.response 429 (some []),
                    Attempt.response 200 (some [])]).2
      ∧ (200 : Nat) ≠ 429
      ∧ (paginationWorker ⟨true, false, true, ""⟩ JValue.null "u" "x"
            [[Attempt.response 429 (some []), Attempt.response 200 (some [])]]
            "" none []).2
          = List.replicate
              (retryLoop [Attempt.response 429 (some []),
                          Attempt.response 200 (some [])]).2
              (buildRequest "u" "") :=
  ⟨c7_429_retry_never_result.1 (some []) [Attempt.response 200 (some [])]
     (by simp),
   c7_429_retry_never_result.2.1
     [Attempt.response 429 (some []), Attempt.response 200 (some [])]
     200 (some []) rfl,
   c7_429_retry_never_result.2.2 ⟨true, false, true, ""⟩ JValue.null "u" "x"
     [Attempt.response 429 (some []), Attempt.response 200 (some [])]
     "" none rfl⟩

/-- Claim C2 (corrected): for a 200 page in a paginating worker, another
page request is issued iff the decoded body's nextPageToken field is
present with a string value — including the empty string; only when the
field is absent or not a string does the worker terminate and build the
final Result.  The cursor of the follow-up request carries the pageToken
parameter only when the token is non-empty (buildRequest). -/
theorem c2_token_presence_controls_continuation (o : Opts) (input : JValue)
    (url cn : String) (body : JObj) (rest : List (List Attempt))
    (cursor : String) (coll : Option (List JValue)) (calls : List Request)
    (hex : o.execute = true) (hcn : cn ≠ "") :
    (∀ npt : String,
        jlookup "nextPageToken" body = some (JValue.str npt) →
        paginationWorker o input url cn
            ([Attempt.response 200 (some body)] :: rest) cursor coll calls
          = paginationWorker o input url cn rest npt
              (updateCollection cn body coll)
              (calls ++ [buildRequest url cursor]))
      ∧ ((∀ s : String,
            jlookup "nextPageToken" body ≠ some (JValue.str s)) →
          paginationWorker o input url cn
              ([Attempt.response 200 (some body)] :: rest) cursor coll calls
            = (WorkerOutcome.emitted
                 ⟨input, mergedResponse cn (updateCollection cn body coll)⟩,
               calls ++ [buildRequest url cursor])) := by
  constructor
  · intro npt hl
    rw [pw_paginate_step o input url cn body rest cursor coll calls hex hcn]
    rw [hl]
  · intro hl
    rw [pw_paginate_step o input url cn body rest cursor coll calls hex hcn]
    rcases hv : jlookup "nextPageToken" body with _ | v
    · rfl
    · cases v with
      | str s => exact absurd hv (hl s)
      | null => rfl
      | bool b => rfl
      | num n => rfl
      | arr a => rfl
      | obj f => rfl

/-- Counterexample to C2 as stated: a page whose nextPageToken is present
but EMPTY does not terminate pagination — the worker sets the cursor to
the empty string and issues a second request (two calls below, both
without a pageToken parameter), merging the second page's items. -/
theorem c2_counterexample :
    paginationWorker ⟨true, false, true, ""⟩ JValue.null "http://h/a"
        "items"
        [[Attempt.response 200 (some [("items", JValue.arr [JValue.num 1]),
                                      ("nextPageToken", JValue.str "")])],
         [Attempt.response 200 (some [("items", JValue.arr [JValue.num 2])])]]
        "" none []
      = (WorkerOutcome.emitted
           ⟨JValue.null,
            JValue.obj [("items", JValue.arr [JValue.num 1, JValue.num 2])]⟩,
         [buildRequest "http://h/a" "", buildRequest "http://h/a" ""]) :=
  rfl

/-- Witness for C2: the amended theorem applied at a page with a
non-empty token (continuation) and hypotheses discharged concretely. -/
theorem c2_witness :
    paginationWorker ⟨true, false, true, ""⟩ JValue.null "u" "items"
        [[Attempt.response 200
            (some [("items", JValue.arr [JValue.num 1]),
                   ("nextPageToken", JValue.str "t2")])]]
        "" none []
      = paginationWorker ⟨true, false, true, ""⟩ JValue.null "u" "items" []
          "t2"
          (updateCollection "items"
            [("items", JValue.arr [JValue.num 1]),
             ("nextPageToken", JValue.str "t2")] none)
          [buildRequest "u" ""] :=
  (c2_token_presence_controls_continuation ⟨true, false, true, ""⟩
      JValue.null "u" "items"
      [("items", JValue.arr [JValue.num 1]),
       ("nextPageToken", JValue.str "t2")]
      [] "" none [] rfl (by simp)).1 "t2" rfl

/-- Claim C5 (corrected): exactly one Result per executed seed holds only
when the drop filter does not interfere: with IncludeError set, a
terminal non-429 4xx produces the raw-body Result; with IncludeError
unset (the default) the worker returns with NO Result at all; in dry-run
mode the worker terminates after logging with no Result (first
conjunct). -/
theorem c5_result_unless_dropped_or_dry_run :
    (∀ (o : Opts) (input : JValue) (url cn : String)
        (script : List (List Attempt)) (cursor : String)
        (coll : Option (List JValue)) (calls : List Request),
        o.execute = false →
        paginationWorker o input url cn script cursor coll calls
          = (WorkerOutcome.dryRun, calls))
      ∧ (∀ (o : Opts) (input : JValue) (url cn : String) (body : JObj)
          (rest : List (List Attempt)) (cursor : String)
          (coll : Option (List JValue)) (calls : List Request) (s : Nat),
          o.execute = true → 400 ≤ s → s < 500 → s ≠ 429 →
          (paginationWorker o input url cn
              ([Attempt.response s (some body)] :: rest) cursor coll calls).1
            = if o.includeError then
                WorkerOutcome.emitted ⟨input, JValue.obj body⟩
              else WorkerOutcome.dropped) := by
  constructor
  · exact fun o input url cn script cursor coll calls h =>
      pw_dry_run o input url cn script cursor coll calls h
  · intro o input url cn body rest cursor coll calls s hex h4 h5 h9
    rw [pw_4xx_step o input url cn body rest cursor coll calls s hex h4 h5 h9]

/-- Counterexample to C5 as stated: execute mode, default options
(IncludeError false), a single 404 — a terminal non-fatal outcome — yields
NO Result: the worker returns the dropped outcome. -/
theorem c5_counterexample :
    paginationWorker ⟨true, false, false, ""⟩
        (JValue.obj [("x", JValue.num 1)]) "http://h/a" "items"
        [[Attempt.response 404 (some [("error", JValue.str "not found")])]]
        "" none []
      = (WorkerOutcome.dropped, [buildRequest "http://h/a" ""]) :=
  rfl

/-- Witness for C5: both conjuncts of the amended theorem applied at
concrete inputs. -/
theorem c5_witness :
    paginationWorker ⟨false, false, true, ""⟩ JValue.null "u" "items"
        [[Attempt.response 200 (some [])]] "" none []
      = (WorkerOutcome.dryRun, [])
      ∧ (paginationWorker ⟨true, false, true, ""⟩ JValue.null "u" "items"
            [[Attempt.response 404 (some [("error", JValue.str "nf")])]]
            "" none []).1
          = WorkerOutcome.emitted
              ⟨JValue.null, JValue.obj [("error", JValue.str "nf")]⟩ :=
  ⟨c5_result_unless_dropped_or_dry_run.1 ⟨false, false, true, ""⟩ JValue.null
     "u" "items" [[Attempt.response 200 (some [])]] "" none [] rfl,
   c5_result_unless_dropped_or_dry_run.2 ⟨true, false, true, ""⟩ JValue.null
     "u" "items" [("error", JValue.str "nf")] [] "" none [] 404 rfl
     (by omega) (by omega) (by omega)⟩

/-- Claim C6 (corrected): on a non-429 4xx the worker stops requesting
for that seed — exactly one request is appended and the remaining script
is never consulted — and the outcome is never fatal; but the raw-body
Result is produced only when IncludeError is set: with it unset (the
default) the worker returns with no Result. -/
theorem c6_4xx_terminal_outcome (o : Opts) (input : JValue) (url cn : String)
    (body : JObj) (rest : List (List Attempt)) (cursor : String)
    (coll : Option (List JValue)) (calls : List Request) (s : Nat)
    (hex : o.execute = true) (h4 : 400 ≤ s) (h5 : s < 500) (h9 : s ≠ 429) :
    paginationWorker o input url cn
        ([Attempt.response s (some body)] :: rest) cursor coll calls
      = ((if o.includeError then
            WorkerOutcome.emitted ⟨input, JValue.obj body⟩
          else WorkerOutcome.dropped),
         calls ++ [buildRequest url cursor]) :=
  pw_4xx_step o input url cn body rest cursor coll calls s hex h4 h5 h9

/-- Counterexample to C6 as stated: a 403 under default options (the drop
filter active) produces zero Results — not exactly one with the raw body —
although, as claimed, no further request is issued (the scripted second
page stays untouched). -/
theorem c6_counterexample :
    paginationWorker ⟨true, false, false, ""⟩ JValue.null "http://h/b"
        "stuff"
        [[Attempt.response 403 (some [("code", JValue.num 403)])],
         [Attempt.response 200 (some [])]]
        "" none []
      = (WorkerOutcome.dropped, [buildRequest "http://h/b" ""]) :=
  rfl

/-- Witness for C6: the amended theorem applied with IncludeError set,
showing the raw 403 body emitted after exactly one request. -/
theorem c6_witness :
    paginationWorker ⟨true, false, true, ""⟩ JValue.null "http://h/b"
        "stuff"
        [[Attempt.response 403 (some [("code", JValue.num 403)])],
         [Attempt.response 200 (some [])]]
        "" none []
      = (WorkerOutcome.emitted
           ⟨JValue.null, JValue.obj [("code", JValue.num 403)]⟩,
         [buildRequest "http://h/b" ""]) :=
  c6_4xx_terminal_outcome ⟨true, false, true, ""⟩ JValue.null "http://h/b"
    "stuff" [("code", JValue.num 403)] [[Attempt.response 200 (some [])]]
    "" none [] 403 rfl (by omega) (by omega) (by omega)

/-- Step corollary: a string-valued nextPageToken (of any content) makes
the worker set the cursor and fetch another page. -/
theorem pw_step_continue (o : Opts) (input : JValue) (url cn : String)
    (body : JObj) (rest : List (List Attempt)) (cursor : String)
    (coll : Option (List JValue)) (calls : List Request)
    (hex : o.execute = true) (hcn : cn ≠ "") (npt : String)
    (hl : jlookup "nextPageToken" body = some (JValue.str npt)) :
    paginationWorker o input url cn
        ([Attempt.response 200 (some body)] :: rest) cursor coll calls
      = paginationWorker o input url cn rest npt
          (updateCollection cn body coll)
          (calls ++ [buildRequest url cursor]) := by
  rw [pw_paginate_step o input url cn body rest cursor coll calls hex hcn]
  rw [hl]

/-- Step corollary: an absent or non-string nextPageToken terminates
pagination with the merged Result. -/
theorem pw_step_terminate (o : Opts) (input : JValue) (url cn : String)
    (body : JObj) (rest : List (List Attempt)) (cursor : String)
    (coll : Option (List JValue)) (calls : List Request)
    (hex : o.execute = true) (hcn : cn ≠ "")
    (hl : ∀ s : String, jlookup "nextPageToken" body ≠ some (JValue.str s)) :
    paginationWorker o input url cn
        ([Attempt.response 200 (some body)] :: rest) cursor coll calls
      = (WorkerOutcome.emitted
           ⟨input, mergedResponse cn (updateCollection cn body coll)⟩,
         calls ++ [buildRequest url cursor]) := by
  rw [pw_paginate_step o input url cn body rest cursor coll calls hex hcn]
  rcases hv : jlookup "nextPageToken" body with _ | v
  · rfl
  · cases v with
    | str s => exact absurd hv (hl s)
    | null => rfl
    | bool b => rfl
    | num n => rfl
    | arr a => rfl
    | obj f => rfl

/-- A body whose collection value is only ever an empty slice (or not a
slice at all) leaves the accumulated collection untouched. -/
theorem updateCollection_skip (cn : String) (body : JObj)
    (coll : Option (List JValue))
    (hskip : ∀ c : List JValue,
        jlookup cn body = some (JValue.arr c) → c = []) :
    updateCollection cn body coll = coll := by
  rcases hv : jlookup cn body with _ | v
  · simp [updateCollection, hv]
  · cases v with
    | arr c =>
      have hc := hskip c hv
      subst hc
      simp [updateCollection, hv, goAppend]
    | null => simp [updateCollection, hv]
    | bool b => simp [updateCollection, hv]
    | num n => simp [updateCollection, hv]
    | str s => simp [updateCollection, hv]
    | obj f => simp [updateCollection, hv]

/-- Claim C10 (confirmed): when a 200 page's body holds the collection
key with a non-slice value, or a slice of zero items, the worker silently
skips accumulation for that page — the collection passes through
unchanged — and pagination proceeds exactly as usual: the cursor still
advances when a string nextPageToken is present (first conjunct), and
otherwise the worker terminates normally with the Result built from the
untouched collection (second conjunct); no error outcome arises from the
shape mismatch. -/
theorem c10_shape_mismatch_silently_skipped (o : Opts) (input : JValue)
    (url cn : String) (body : JObj) (rest : List (List Attempt))
    (cursor : String) (coll : Option (List JValue)) (calls : List Request)
    (hex : o.execute = true) (hcn : cn ≠ "")
    (hskip : ∀ c : List JValue,
        jlookup cn body = some (JValue.arr c) → c = []) :
    (∀ npt : String,
        jlookup "nextPageToken" body = some (JValue.str npt) →
        paginationWorker o input url cn
            ([Attempt.response 200 (some body)] :: rest) cursor coll calls
          = paginationWorker o input url cn rest npt coll
              (calls ++ [buildRequest url cursor]))
      ∧ ((∀ s : String,
            jlookup "nextPageToken" body ≠ some (JValue.str s)) →
          paginationWorker o input url cn
              ([Attempt.response 200 (some body)] :: rest) cursor coll calls
            = (WorkerOutcome.emitted ⟨input, mergedResponse cn coll⟩,
               calls ++ [buildRequest url cursor])) := by
  constructor
  · intro npt hl
    rw [pw_step_continue o input url cn body rest cursor coll calls hex hcn
          npt hl]
    rw [updateCollection_skip cn body coll hskip]
  · intro hl
    rw [pw_step_terminate o input url cn body rest cursor coll calls hex hcn
          hl]
    rw [updateCollection_skip cn body coll hskip]

/-- Witness for C10: a page whose collection key holds a string instead
of a slice; the collection (some [7]) passes through untouched and the
cursor advances to the page's token. -/
theorem c10_witness :
    paginationWorker ⟨true, false, true, ""⟩ JValue.null "u" "items"
        [[Attempt.response 200
            (some [("items", JValue.str "oops"),
                   ("nextPageToken", JValue.str "t")])]]
        "" (some [JValue.num 7]) []
      = paginationWorker ⟨true, false, true, ""⟩ JValue.null "u" "items" []
          "t" (some [JValue.num 7]) [buildRequest "u" ""] :=
  (c10_shape_mismatch_silently_skipped ⟨true, false, true, ""⟩ JValue.null
      "u" "items"
      [("items", JValue.str "oops"), ("nextPageToken", JValue.str "t")]
      [] "" (some [JValue.num 7]) [] rfl (by simp)
      (by intro c h; simp [jlookup] at h)).1 "t" rfl

/-- Claim C9 (confirmed): if every fetched page is a decodable 200 whose
collection value is never a non-empty slice, then whenever the worker
emits a Result (starting from a nil collection) that Result's response is
the empty object — the collection key is omitted entirely, never an empty
sequence. -/
theorem c9_empty_collection_key_omitted (o : Opts) (input : JValue)
    (url cn : String) :
    ∀ (script : List (List Attempt)) (cursor : String) (calls : List Request),
      o.execute = true → cn ≠ "" →
      (∀ page ∈ script, ∃ body : JObj,
          page = [Attempt.response 200 (some body)] ∧
          ∀ c : List JValue, jlookup cn body = some (JValue.arr c) → c = []) →
      ∀ (res : output) (calls2 : List Request),
        paginationWorker o input url cn script cursor none calls
          = (WorkerOutcome.emitted res, calls2) →
        res.response = JValue.obj [] := by
  intro script
  induction script with
  | nil =>
    intro cursor calls hex hcn hpages res calls2 hrun
    rw [pw_nil o input url cn cursor none calls hex] at hrun
    simp at hrun
  | cons page rest ih =>
    intro cursor calls hex hcn hpages res calls2 hrun
    obtain ⟨body, hpage, hskip⟩ := hpages page (by simp)
    subst hpage
    rcases hv : jlookup "nextPageToken" body with _ | v
    · rw [pw_step_terminate o input url cn body rest cursor none calls hex
            hcn (by intro s; rw [hv]; simp),
          updateCollection_skip cn body none hskip] at hrun
      have hres : res = ⟨input, mergedResponse cn none⟩ := by
        have h1 := congrArg Prod.fst hrun
        simpa using h1.symm
      rw [hres]
      rfl
    · cases v with
      | str npt =>
        rw [pw_step_continue o input url cn body rest cursor none calls hex
              hcn npt hv,
            updateCollection_skip cn body none hskip] at hrun
        exact ih npt (calls ++ [buildRequest url cursor]) hex hcn
          (fun p hp => hpages p (by simp [hp])) res calls2 hrun
      | null =>
        rw [pw_step_terminate o input url cn body rest cursor none calls hex
              hcn (by intro s; rw [hv]; simp),
            updateCollection_skip cn body none hskip] at hrun
        have hres : res = ⟨input, mergedResponse cn none⟩ := by
          have h1 := congrArg Prod.fst hrun
          simpa using h1.symm
        rw [hres]
        rfl
      | bool b =>
        rw [pw_step_terminate o input url cn body rest cursor none calls hex
              hcn (by intro s; rw [hv]; simp),
            updateCollection_skip cn body none hskip] at hrun
        have hres : res = ⟨input, mergedResponse cn none⟩ := by
          have h1 := congrArg Prod.fst hrun
          simpa using h1.symm
        rw [hres]
        rfl
      | num n =>
        rw [pw_step_terminate o input url cn body rest cursor none calls hex
              hcn (by intro s; rw [hv]; simp),
            updateCollection_skip cn body none hskip] at hrun
        have hres : res = ⟨input, mergedResponse cn none⟩ := by
          have h1 := congrArg Prod.fst hrun
          simpa using h1.symm
        rw [hres]
        rfl
      | arr a =>
        rw [pw_step_terminate o input url cn body rest cursor none calls hex
              hcn (by intro s; rw [hv]; simp),
            updateCollection_skip cn body none hskip] at hrun
        have hres : res = ⟨input, mergedResponse cn none⟩ := by
          have h1 := congrArg Prod.fst hrun
          simpa using h1.symm
        rw [hres]
        rfl
      | obj f =>
        rw [pw_step_terminate o input url cn body rest cursor none calls hex
              hcn (by intro s; rw [hv]; simp),
            updateCollection_skip cn body none hskip] at hrun
        have hres : res = ⟨input, mergedResponse cn none⟩ := by
          have h1 := congrArg Prod.fst hrun
          simpa using h1.symm
        rw [hres]
        rfl

/-- Witness for C9: a single 200 page carrying no collection key at all;
the theorem yields that the emitted response is the empty object. -/
theorem c9_witness :
    (⟨JValue.null, JValue.obj []⟩ : output).response = JValue.obj [] :=
  c9_empty_collection_key_omitted ⟨true, false, true, ""⟩ JValue.null "u"
    "items" [[Attempt.response 200 (some [("other", JValue.num 1)])]] "" []
    rfl (by simp)
    (by
      intro page hp
      simp only [List.mem_singleton] at hp
      exact ⟨[("other", JValue.num 1)], hp, by intro c h; simp [jlookup] at h⟩)
    ⟨JValue.null, JValue.obj []⟩ [buildRequest "u" ""] rfl

/-- The endpoint script of a well-behaved paginated listing: each
intermediate page carries its items and a nextPageToken, the final page
carries items and no token, and every page succeeds on the first
attempt. -/
def happyScript (cn : String) (ps : List (List JValue × String))
    (lastItems : List JValue) : List (List Attempt) :=
  ps.map (fun p => [Attempt.response 200 (some (mkPageBody cn p.1 (some p.2)))])
    ++ [[Attempt.response 200 (some (mkPageBody cn lastItems none))]]

/-- The collection key of a well-formed page body reads back its items. -/
theorem jlookup_mkPageBody_cn (cn : String) (items : List JValue)
    (tok : Option String) :
    jlookup cn (mkPageBody cn items tok) = some (JValue.arr items) := by
  simp [mkPageBody, jlookup]

/-- The token field of an intermediate page body reads back its token. -/
theorem jlookup_mkPageBody_token_some (cn : String) (items : List JValue)
    (t : String) (hnpt : cn ≠ "nextPageToken") :
    jlookup "nextPageToken" (mkPageBody cn items (some t))
      = some (JValue.str t) := by
  simp [mkPageBody, jlookup, Ne.symm hnpt]

/-- The token field of a final page body is absent. -/
theorem jlookup_mkPageBody_token_none (cn : String) (items : List JValue)
    (hnpt : cn ≠ "nextPageToken") :
    jlookup "nextPageToken" (mkPageBody cn items none) = none := by
  simp [mkPageBody, jlookup, Ne.symm hnpt]

/-- Accumulation on a well-formed page body appends its items. -/
theorem updateCollection_mkPageBody (cn : String) (items : List JValue)
    (tok : Option String) (coll : Option (List JValue)) :
    updateCollection cn (mkPageBody cn items tok) coll
      = goAppend coll items := by
  simp [updateCollection, jlookup_mkPageBody_cn]

/-- Generalized pagination run over a well-behaved script: starting from
any cursor and any already-accumulated items, the worker walks every
page, appends the items in page order and emits the merged Result, one
request per page. -/
theorem c1_aux (o : Opts) (input : JValue) (url cn : String)
    (hex : o.execute = true) (hcn : cn ≠ "") (hnpt : cn ≠ "nextPageToken") :
    ∀ (ps : List (List JValue × String)) (lastItems : List JValue)
      (cursor : String) (acc : List JValue) (calls : List Request),
      paginationWorker o input url cn (happyScript cn ps lastItems) cursor
          (ofNonempty acc) calls
        = (WorkerOutcome.emitted
             ⟨input,
              mergedResponse cn
                (ofNonempty (acc ++ ((ps.map Prod.fst).join ++ lastItems)))⟩,
           calls ++ buildRequest url cursor
             :: ps.map (fun p => buildRequest url p.2)) := by
  intro ps
  induction ps with
  | nil =>
    intro lastItems cursor acc calls
    rw [show happyScript cn [] lastItems
          = [[Attempt.response 200 (some (mkPageBody cn lastItems none))]]
        from rfl]
    rw [pw_step_terminate o input url cn (mkPageBody cn lastItems none) []
          cursor (ofNonempty acc) calls hex hcn
          (by intro s
              rw [jlookup_mkPageBody_token_none cn lastItems hnpt]
              simp)]
    rw [updateCollection_mkPageBody cn lastItems none (ofNonempty acc)]
    rw [goAppend_ofNonempty]
    simp
  | cons p ps ih =>
    intro lastItems cursor acc calls
    obtain ⟨items, t⟩ := p
    rw [show happyScript cn ((items, t) :: ps) lastItems
          = [Attempt.response 200 (some (mkPageBody cn items (some t)))]
              :: happyScript cn ps lastItems from rfl]
    rw [pw_step_continue o input url cn (mkPageBody cn items (some t))
          (happyScript cn ps lastItems) cursor (ofNonempty acc) calls hex hcn
          t (jlookup_mkPageBody_token_some cn items t hnpt)]
    rw [updateCollection_mkPageBody cn items (some t) (ofNonempty acc)]
    rw [goAppend_ofNonempty]
    rw [ih lastItems t (acc ++ items) (calls ++ [buildRequest url cursor])]
    simp [List.append_assoc]

/-- Claim C1 (corrected): for a seed whose endpoint returns the pages of
ps (items and a non-empty token each) and then a final page of lastItems
with no token, the worker fetches every page once, in order, and emits
one Result whose response is the merged collection object built from the
concatenation of all pages' items in page order — except that when the
concatenation is empty the collection key is omitted (mergedResponse of
a nil collection is the empty object), rather than carrying an empty
sequence. -/
theorem c1_merged_collection_concatenation (o : Opts) (input : JValue)
    (url cn : String) (ps : List (List JValue × String))
    (lastItems : List JValue)
    (hex : o.execute = true) (hcn : cn ≠ "") (hnpt : cn ≠ "nextPageToken")
    (htok : ∀ p ∈ ps, p.2 ≠ "") :
    paginationWorker o input url cn (happyScript cn ps lastItems) "" none []
      = (WorkerOutcome.emitted
           ⟨input,
            mergedResponse cn
              (ofNonempty ((ps.map Prod.fst).join ++ lastItems))⟩,
         buildRequest url "" :: ps.map (fun p => buildRequest url p.2)) := by
  have h := c1_aux o input url cn hex hcn hnpt ps lastItems "" [] []
  simpa [ofNonempty] using h

/-- Counterexample to C1 as stated: one page (k = 1) with zero items
under the collection key — the emitted response is the EMPTY object, not
the claimed singleton object carrying an empty collection. -/
theorem c1_counterexample :
    (paginationWorker ⟨true, false, true, ""⟩
        (JValue.obj [("x", JValue.num 1)]) "http://h/a" "items"
        [[Attempt.response 200 (some [("items", JValue.arr [])])]]
        "" none []).1
      = WorkerOutcome.emitted
          ⟨JValue.obj [("x", JValue.num 1)], JValue.obj []⟩
      ∧ JValue.obj [] ≠ JValue.obj [("items", JValue.arr [])] :=
  ⟨rfl, by simp⟩

/-- Witness for C1: the spec's end-to-end example — two pages with items
1,2 then 3 — merged into a single three-item collection with one request
per page. -/
theorem c1_witness :
    paginationWorker ⟨true, false, true, ""⟩
        (JValue.obj [("x", JValue.num 1)]) "http://h/a" "items"
        (happyScript "items" [([JValue.num 1, JValue.num 2], "t")]
          [JValue.num 3])
        "" none []
      = (WorkerOutcome.emitted
           ⟨JValue.obj [("x", JValue.num 1)],
            JValue.obj [("items",
              JValue.arr [JValue.num 1, JValue.num 2, JValue.num 3])]⟩,
         [buildRequest "http://h/a" "", buildRequest "http://h/a" "t"]) := by
  have h := c1_merged_collection_concatenation ⟨true, false, true, ""⟩
      (JValue.obj [("x", JValue.num 1)]) "http://h/a" "items"
      [([JValue.num 1, JValue.num 2], "t")] [JValue.num 3] rfl (by decide)
      (by decide)
      (by
        intro p hp
        rcases List.mem_singleton.mp hp with rfl
        decide)
  exact h
